import Mathlib

/-!
Verification of the mylang compiler core (semantic analysis, borrow
checking, code generation) against its natural-language specification.

The definitions below are a shallow embedding of the C sources:
  src/src/semantic.c, src/src/borrowchecker.c, src/src/codegen.c,
  src/include/ast.h, src/include/common.h, src/src/main.c.
C linked lists become Lean lists (prepend = cons, search = first match),
in-place mutation becomes explicit state threading, `errorf`/`bc_error`
followed by `exit(1)` becomes `Except` error propagation, and the output
`FILE*` becomes an accumulated `String` carried in the generator state
(also carried inside a code-generation error, since the C process exits
with the written bytes flushed to the file).
-/

set_option maxRecDepth 4096

namespace MyLang

/-! ## Types (include/common.h) -/

/-- `TypeKind` from common.h. -/
inductive TypeKind where
  | TY_INT
  | TY_STRING
  | TY_REF
  | TY_MUTREF
  | TY_RC
  | TY_UNKNOWN
deriving DecidableEq, Repr

/-- `struct Type { TypeKind kind; struct Type *inner; }`: a kind together
with a pointee pointer that is either null (`noInner`) or set (`withInner`). -/
inductive Ty where
  | noInner (kind : TypeKind)
  | withInner (kind : TypeKind) (inner : Ty)
deriving DecidableEq, Repr

/-- The `kind` field of a `Ty`. -/
def Ty.kind : Ty → TypeKind
  | .noInner k => k
  | .withInner k _ => k

/-- `mktype` from common.h: a type with a null pointee. -/
def mktype (k : TypeKind) : Ty := .noInner k

/-- `mkref` from common.h: a reference type wrapping a pointee. -/
def mkref (k : TypeKind) (inner : Ty) : Ty := .withInner k inner

/-! ## AST (include/ast.h) -/

/-- `struct Expr`: tagged expression nodes, each carrying line, column and
the `type` field that the semantic analyzer overwrites. -/
inductive Expr where
  | E_INT_LIT (val : Int) (line col : Nat) (type : Ty)
  | E_STR_LIT (s : String) (line col : Nat) (type : Ty)
  | E_IDENT (name : String) (line col : Nat) (type : Ty)
  | E_BINOP (op : Char) (lhs rhs : Expr) (line col : Nat) (type : Ty)
  | E_CALL (name : String) (args : List Expr) (line col : Nat) (type : Ty)
  | E_ADDR (inner : Expr) (line col : Nat) (type : Ty)
  | E_MUTADDR (inner : Expr) (line col : Nat) (type : Ty)
  | E_RANGE (first last : Expr) (line col : Nat) (type : Ty)
  | E_ARRAY_LIT (items : List Expr) (line col : Nat) (type : Ty)
  | E_INDEX (arr idx : Expr) (line col : Nat) (type : Ty)

/-- Source line of an expression node. -/
def Expr.line : Expr → Nat
  | .E_INT_LIT _ l _ _ => l
  | .E_STR_LIT _ l _ _ => l
  | .E_IDENT _ l _ _ => l
  | .E_BINOP _ _ _ l _ _ => l
  | .E_CALL _ _ l _ _ => l
  | .E_ADDR _ l _ _ => l
  | .E_MUTADDR _ l _ _ => l
  | .E_RANGE _ _ l _ _ => l
  | .E_ARRAY_LIT _ l _ _ => l
  | .E_INDEX _ _ l _ _ => l

/-- Source column of an expression node. -/
def Expr.col : Expr → Nat
  | .E_INT_LIT _ _ c _ => c
  | .E_STR_LIT _ _ c _ => c
  | .E_IDENT _ _ c _ => c
  | .E_BINOP _ _ _ _ c _ => c
  | .E_CALL _ _ _ c _ => c
  | .E_ADDR _ _ c _ => c
  | .E_MUTADDR _ _ c _ => c
  | .E_RANGE _ _ _ c _ => c
  | .E_ARRAY_LIT _ _ c _ => c
  | .E_INDEX _ _ _ c _ => c

/-- The annotated `type` field of an expression node. -/
def Expr.type : Expr → Ty
  | .E_INT_LIT _ _ _ t => t
  | .E_STR_LIT _ _ _ t => t
  | .E_IDENT _ _ _ t => t
  | .E_BINOP _ _ _ _ _ t => t
  | .E_CALL _ _ _ _ t => t
  | .E_ADDR _ _ _ t => t
  | .E_MUTADDR _ _ _ t => t
  | .E_RANGE _ _ _ _ t => t
  | .E_ARRAY_LIT _ _ _ t => t
  | .E_INDEX _ _ _ _ t => t

/-- Numeric value of the `ExprKind` enum tag, as printed by the
`"unsupported expr kind %d"` diagnostics. -/
def Expr.kindIdx : Expr → Nat
  | .E_INT_LIT .. => 0
  | .E_STR_LIT .. => 1
  | .E_IDENT .. => 2
  | .E_BINOP .. => 3
  | .E_CALL .. => 4
  | .E_ADDR .. => 5
  | .E_MUTADDR .. => 6
  | .E_RANGE .. => 7
  | .E_ARRAY_LIT .. => 8
  | .E_INDEX .. => 9

/-- `struct Stmt`: tagged statement nodes with line and column. -/
inductive Stmt where
  | S_DECL (name : String) (type : Ty) (init : Option Expr) (line col : Nat)
  | S_EXPR (e : Expr) (line col : Nat)
  | S_IF (cond : Expr) (then_s : Stmt) (else_s : Option Stmt) (line col : Nat)
  | S_WHILE (cond : Expr) (body : Stmt) (line col : Nat)
  | S_FOR (var : String) (iter : Expr) (body : Stmt) (line col : Nat)
  | S_BLOCK (stmts : List Stmt) (line col : Nat)
  | S_RETURN (e : Option Expr) (line col : Nat)
  | S_BREAK (line col : Nat)
  | S_CONTINUE (line col : Nat)

/-- Numeric value of the `StmtKind` enum tag, as printed by the
`"unsupported stmt kind %d"` diagnostic. -/
def Stmt.kindIdx : Stmt → Nat
  | .S_DECL .. => 0
  | .S_EXPR .. => 1
  | .S_IF .. => 2
  | .S_WHILE .. => 3
  | .S_FOR .. => 4
  | .S_BLOCK .. => 5
  | .S_RETURN .. => 6
  | .S_BREAK .. => 7
  | .S_CONTINUE .. => 8

/-- `struct Function`: the single entry routine. -/
structure Function where
  name : String
  ret_type : Ty
  body : Stmt

/-! ## Semantic analyzer (src/semantic.c) -/

/-- `struct Sym`: one symbol-table entry. -/
structure Sym where
  name : String
  type : Ty
  defined_line : Nat
deriving DecidableEq, Repr

/-- The symbol table is the chain headed at `t->head`; prepending models
`sym_add`, first-match search models `sym_find`. -/
abbrev SymTable := List Sym

/-- `sym_add`: prepend a new entry (shadowing earlier ones). -/
def sym_add (t : SymTable) (name : String) (ty : Ty) (line : Nat) : SymTable :=
  ⟨name, ty, line⟩ :: t

/-- `sym_find`: front-to-back search, first match wins. -/
def sym_find : SymTable → String → Option Sym
  | [], _ => none
  | s :: rest, name => if s.name = name then some s else sym_find rest name

/-- The distinct fatal diagnostics issued by semantic.c through `errorf`. -/
inductive SemErr where
  | undeclaredVariable (name : String) (line col : Nat)
  | cloneArity (line col : Nat)
  | cloneNonString (line col : Nat)
  | printArity (line col : Nat)
  | unknownFunction (name : String) (line col : Nat)
  | unsupportedExpr (kind : Nat) (line col : Nat)
  | typeMismatch (name : String) (line col : Nat)
deriving DecidableEq, Repr

/-- Single-quoted name, as produced by the `'%s'` fragments. -/
def sq (s : String) : String := "'" ++ s ++ "'"

/-- The ` at %d:%d\n` tail shared by the semantic/codegen `errorf` calls. -/
def atPos (line col : Nat) : String :=
  " at " ++ toString line ++ ":" ++ toString col ++ "\n"

/-- The exact text each semantic `errorf` call writes to stderr. -/
def renderSem : SemErr → String
  | .undeclaredVariable name l c =>
      "Semantic error: use of undeclared variable " ++ sq name ++ atPos l c
  | .cloneArity l c => "clone() expects exactly 1 argument" ++ atPos l c
  | .cloneNonString l c => "clone() only implemented for string types" ++ atPos l c
  | .printArity l c => "print() expects exactly 1 argument" ++ atPos l c
  | .unknownFunction name l c => "Unknown function " ++ sq name ++ atPos l c
  | .unsupportedExpr k l c =>
      "Semantic: unsupported expr kind " ++ toString k ++ atPos l c
  | .typeMismatch name l c =>
      "Type mismatch in declaration of " ++ sq name ++ atPos l c

/-- `infer_expr`: infers the type of an expression, annotating every
visited node (the returned expression is the annotated copy, mirroring
`e->type = result`). -/
def infer_expr (sym : SymTable) : Expr → Except SemErr (Expr × Ty)
  | .E_INT_LIT v l c _ => .ok (.E_INT_LIT v l c (mktype .TY_INT), mktype .TY_INT)
  | .E_STR_LIT s l c _ => .ok (.E_STR_LIT s l c (mktype .TY_STRING), mktype .TY_STRING)
  | .E_IDENT name l c _ =>
      match sym_find sym name with
      | none => .error (.undeclaredVariable name l c)
      | some s => .ok (.E_IDENT name l c s.type, s.type)
  | .E_ADDR inner l c _ => do
      let (inner2, it) ← infer_expr sym inner
      let r := mkref .TY_REF it
      .ok (.E_ADDR inner2 l c r, r)
  | .E_MUTADDR inner l c _ => do
      let (inner2, it) ← infer_expr sym inner
      let r := mkref .TY_MUTREF it
      .ok (.E_MUTADDR inner2 l c r, r)
  | .E_CALL fn args l c _ =>
      if fn = "clone" then
        match args with
        | [a] => do
            let (a2, ta) ← infer_expr sym a
            if ta.kind = .TY_STRING then
              .ok (.E_CALL fn [a2] l c (mktype .TY_STRING), mktype .TY_STRING)
            else
              .error (.cloneNonString l c)
        | _ => .error (.cloneArity l c)
      else if fn = "print" then
        match args with
        | [a] => do
            let (a2, _) ← infer_expr sym a
            .ok (.E_CALL fn [a2] l c (mktype .TY_INT), mktype .TY_INT)
        | _ => .error (.printArity l c)
      else
        .error (.unknownFunction fn l c)
  | e => .error (.unsupportedExpr e.kindIdx e.line e.col)

/-- The declared/inferred compatibility test in `sem_stmt`'s `S_DECL`
case: `t.kind == init_t.kind || (t.kind == TY_REF && init_t.kind == TY_REF)`. -/
def declCompat (t it : Ty) : Bool :=
  t.kind = it.kind || (t.kind = .TY_REF && it.kind = .TY_REF)

mutual

/-- `sem_stmt`: checks one statement, returning the annotated statement
and the updated symbol table (C mutates through `SymTable *sym`; a block
runs its children against a local head and discards their additions). -/
def sem_stmt (sym : SymTable) : Stmt → Except SemErr (Stmt × SymTable)
  | .S_DECL name t init l c =>
      match init with
      | some e => do
          let (e2, it) ← infer_expr sym e
          if t.kind = .TY_UNKNOWN then
            .ok (.S_DECL name t (some e2) l c, sym_add sym name it l)
          else if declCompat t it then
            .ok (.S_DECL name t (some e2) l c, sym_add sym name t l)
          else
            .error (.typeMismatch name l c)
      | none => .ok (.S_DECL name t none l c, sym_add sym name t l)
  | .S_EXPR e l c => do
      let (e2, _) ← infer_expr sym e
      .ok (.S_EXPR e2 l c, sym)
  | .S_BLOCK stmts l c => do
      let (stmts2, _) ← sem_stmt_list sym stmts
      .ok (.S_BLOCK stmts2 l c, sym)
  | .S_IF cond th el l c => do
      let (cond2, _) ← infer_expr sym cond
      let (th2, sym1) ← sem_stmt sym th
      match el with
      | some es => do
          let (es2, sym2) ← sem_stmt sym1 es
          .ok (.S_IF cond2 th2 (some es2) l c, sym2)
      | none => .ok (.S_IF cond2 th2 none l c, sym1)
  | .S_WHILE cond body l c => do
      let (cond2, _) ← infer_expr sym cond
      let (body2, sym1) ← sem_stmt sym body
      .ok (.S_WHILE cond2 body2 l c, sym1)
  | s => .ok (s, sym)

/-- Sequential traversal of a block's statements, threading the local
symbol table. -/
def sem_stmt_list (sym : SymTable) : List Stmt → Except SemErr (List Stmt × SymTable)
  | [] => .ok ([], sym)
  | s :: rest => do
      let (s2, sym1) ← sem_stmt sym s
      let (rest2, sym2) ← sem_stmt_list sym1 rest
      .ok (s2 :: rest2, sym2)

end

/-- `semantic_check`: runs the analyzer on the entry routine's body with
an empty table, returning the annotated routine (the `filename` argument
of the C function is unused there). -/
def semantic_check (f : Function) : Except SemErr Function := do
  let (body2, _) ← sem_stmt [] f.body
  .ok { f with body := body2 }

/-! ## Borrow checker (src/borrowchecker.c) -/

/-- `struct VarInfo`: borrow state of one tracked variable. -/
structure VarInfo where
  name : String
  type : Ty
  valid : Bool
  imm_count : Nat
  mut_borrowed : Bool
  scope_depth : Nat
deriving DecidableEq, Repr

/-- `struct BCState`: the tracked-variable list and the lexical depth. -/
structure BCState where
  vars : List VarInfo
  depth : Nat
deriving DecidableEq, Repr

/-- `find_var`: front-to-back first-match search of the variable list. -/
def find_var : List VarInfo → String → Option VarInfo
  | [], _ => none
  | v :: rest, name => if v.name = name then some v else find_var rest name

/-- `add_var`: prepend a fresh entry (valid, no borrows) at the current
depth — shadowing support. -/
def add_var (s : BCState) (name : String) (t : Ty) : BCState :=
  { s with vars := ⟨name, t, true, 0, false, s.depth⟩ :: s.vars }

/-- In-place mutation of the first entry matching `name` (the one
`find_var` returns), as the C code does through the returned pointer. -/
def update_var : List VarInfo → String → (VarInfo → VarInfo) → List VarInfo
  | [], _, _ => []
  | v :: rest, name, f =>
      if v.name = name then f v :: rest else v :: update_var rest name f

/-- Error categories of the spec's taxonomy, assigned to the borrow
checker's `bc_error` call sites by their messages: "undeclared" messages
are `UndeclaredVariable`, "moved value" messages are `UseOfMovedValue`,
"cannot move … because it is borrowed" is `MoveWhileBorrowed`, the two
borrow-conflict messages are `ConflictingBorrow`, and the two
"non-identifier" messages are `ReferenceOfNonIdentifier`. -/
inductive BCErrKind where
  | UndeclaredVariable
  | UseOfMovedValue
  | MoveWhileBorrowed
  | ConflictingBorrow
  | ReferenceOfNonIdentifier
deriving DecidableEq, Repr

/-- One fatal borrow diagnostic: its taxonomy kind, the formatted message
body handed to `bc_error`, and the position printed with it. -/
structure BCErr where
  kind : BCErrKind
  msg : String
  line : Nat
  col : Nat
deriving DecidableEq, Repr

/-- The exact line `bc_error` writes:
`"%s:%d:%d: borrow error: "` followed by the message and a newline. -/
def renderBC (file : String) (e : BCErr) : String :=
  file ++ ":" ++ toString e.line ++ ":" ++ toString e.col ++
    ": borrow error: " ++ e.msg ++ "\n"

mutual

/-- `visit_expr`: checks expressions for use-after-move; it never changes
the tracked state. -/
def visit_expr (s : BCState) : Expr → Except BCErr Unit
  | .E_IDENT name l c _ =>
      match find_var s.vars name with
      | none =>
          .error ⟨.UndeclaredVariable, "use of undeclared variable " ++ sq name, l, c⟩
      | some v =>
          if v.valid then .ok ()
          else .error ⟨.UseOfMovedValue, "use of moved value " ++ sq name, l, c⟩
  | .E_CALL _ args _ _ _ => visit_expr_list s args
  | .E_ADDR inner _ _ _ => visit_expr s inner
  | .E_MUTADDR inner _ _ _ => visit_expr s inner
  | _ => .ok ()

/-- Left-to-right traversal of call arguments. -/
def visit_expr_list (s : BCState) : List Expr → Except BCErr Unit
  | [] => .ok ()
  | e :: rest => do
      visit_expr s e
      visit_expr_list s rest

end

mutual

/-- `visit_stmt`: enforces move and borrow rules. Note the C switch has
cases only for `S_DECL`, `S_BLOCK`, `S_IF` and `S_WHILE`; every other
statement kind (including `S_EXPR`) falls into `default: break;`. -/
def visit_stmt (s : BCState) : Stmt → Except BCErr BCState
  | .S_DECL name ty init l c =>
      match init with
      | some ini =>
          match ini with
          | .E_IDENT src _ _ _ =>
              match find_var s.vars src with
              | none =>
                  .error ⟨.UndeclaredVariable, "use of undeclared " ++ sq src, l, c⟩
              | some v =>
                  if !v.valid then
                    .error ⟨.UseOfMovedValue, "use of moved value " ++ sq src, l, c⟩
                  else if v.imm_count > 0 || v.mut_borrowed then
                    .error ⟨.MoveWhileBorrowed,
                      "cannot move " ++ sq src ++ " because it is borrowed", l, c⟩
                  else
                    let vars2 := update_var s.vars src (fun w => { w with valid := false })
                    .ok (add_var { s with vars := vars2 } name ty)
          | .E_ADDR inner _ _ _ =>
              match inner with
              | .E_IDENT iname _ _ _ =>
                  match find_var s.vars iname with
                  | none =>
                      .error ⟨.UndeclaredVariable, "borrow of undeclared " ++ sq iname, l, c⟩
                  | some v =>
                      if !v.valid then
                        .error ⟨.UseOfMovedValue, "borrow of moved value " ++ sq iname, l, c⟩
                      else if v.mut_borrowed then
                        .error ⟨.ConflictingBorrow,
                          "cannot shared-borrow " ++ sq iname ++ " while mutably borrowed", l, c⟩
                      else
                        let vars2 := update_var s.vars iname
                          (fun w => { w with imm_count := w.imm_count + 1 })
                        .ok (add_var { s with vars := vars2 } name ty)
              | _ => .error ⟨.ReferenceOfNonIdentifier, "cannot borrow from non-identifier", l, c⟩
          | .E_MUTADDR inner _ _ _ =>
              match inner with
              | .E_IDENT iname _ _ _ =>
                  match find_var s.vars iname with
                  | none =>
                      .error ⟨.UndeclaredVariable, "mut borrow of undeclared " ++ sq iname, l, c⟩
                  | some v =>
                      if !v.valid then
                        .error ⟨.UseOfMovedValue, "mut borrow of moved value " ++ sq iname, l, c⟩
                      else if v.imm_count > 0 || v.mut_borrowed then
                        .error ⟨.ConflictingBorrow,
                          "cannot mutably borrow " ++ sq iname ++ " (already borrowed)", l, c⟩
                      else
                        let vars2 := update_var s.vars iname
                          (fun w => { w with mut_borrowed := true })
                        .ok (add_var { s with vars := vars2 } name ty)
              | _ => .error ⟨.ReferenceOfNonIdentifier, "cannot mutably borrow non-identifier", l, c⟩
          | _ => do
              visit_expr s ini
              .ok (add_var s name ty)
      | none => .ok (add_var s name ty)
  | .S_BLOCK stmts _ _ => do
      let s1 := { s with depth := s.depth + 1 }
      let s2 ← visit_stmt_list s1 stmts
      .ok { vars := s2.vars.filter (fun v => v.scope_depth ≠ s2.depth),
            depth := s2.depth - 1 }
  | .S_IF cond th el _ _ => do
      visit_expr s cond
      let s1 ← visit_stmt s th
      match el with
      | some es => visit_stmt s1 es
      | none => .ok s1
  | .S_WHILE cond body _ _ => do
      visit_expr s cond
      visit_stmt s body
  | _ => .ok s

/-- Sequential traversal of a block's statements. -/
def visit_stmt_list (s : BCState) : List Stmt → Except BCErr BCState
  | [] => .ok s
  | st :: rest => do
      let s1 ← visit_stmt s st
      visit_stmt_list s1 rest

end

/-- `borrow_check`: runs the checker on the routine body from the empty
state at depth 0. -/
def borrow_check (f : Function) : Except BCErr BCState :=
  visit_stmt ⟨[], 0⟩ f.body

/-! ## Code generator (src/codegen.c)

The `#ifdef _WIN32` build-time target choice becomes the `win64` flag of
the generator state. `fprintf(g->out, …)` becomes appending to the `out`
string; an `errorf` during generation carries the text written so far,
since the C process exits leaving exactly those bytes in the output file. -/

/-- `struct Literal`: one literal-pool record. -/
structure Lit where
  s : String
  id : Nat
deriving DecidableEq, Repr

/-- `struct VSlot`: one stack slot. -/
structure VSlot where
  name : String
  offset : Int
  type : Ty
deriving DecidableEq, Repr

/-- `struct CG`: the generator state (with the accumulated output text in
place of the `FILE*`). -/
structure CG where
  win64 : Bool
  out : String
  stack_size : Nat
  slots : List VSlot
  label_counter : Nat
  debug_borrow : Bool
  lits : List Lit
  lit_count : Nat
deriving DecidableEq, Repr

/-- The fatal diagnostics issued by codegen.c through `errorf`. -/
inductive CgErr where
  | unknownIdentifier (name : String) (line col : Nat)
  | unknownFunction (name : String) (line col : Nat)
  | addrExpectsIdent (line col : Nat)
  | unknownVarInAddr (name : String) (line col : Nat)
  | unsupportedExpr (kind : Nat) (line col : Nat)
  | unsupportedStmt (kind : Nat)
  | internalError
deriving DecidableEq, Repr

/-- The exact text each codegen `errorf` call writes to stderr. -/
def renderCg : CgErr → String
  | .unknownIdentifier name l c => "codegen: unknown identifier " ++ sq name ++ atPos l c
  | .unknownFunction name l c => "codegen: unknown function " ++ sq name ++ atPos l c
  | .addrExpectsIdent l c => "codegen: & expects identifier" ++ atPos l c
  | .unknownVarInAddr name l c => "codegen: unknown var " ++ sq name ++ " in &" ++ atPos l c
  | .unsupportedExpr k l c => "codegen: unsupported expr kind " ++ toString k ++ atPos l c
  | .unsupportedStmt k => "codegen: unsupported stmt kind " ++ toString k ++ "\n"
  | .internalError => "internal codegen error\n"

/-- A codegen failure carries the output text already written when
`errorf` terminated the process. -/
abbrev CgFail := String × CgErr

/-- `cg_find`: front-to-back first-match search of the slot list. -/
def cg_find (g : CG) : String → Option VSlot :=
  let rec go : List VSlot → String → Option VSlot
    | [], _ => none
    | v :: rest, name => if v.name = name then some v else go rest name
  go g.slots

/-- `cg_add`: grow the frame by 8 bytes and prepend the new slot at
offset `-stack_size`. -/
def cg_add (g : CG) (name : String) (t : Ty) : CG :=
  let ss := g.stack_size + 8
  { g with stack_size := ss, slots := ⟨name, -(ss : Int), t⟩ :: g.slots }

/-- `cg_new_label`: `return ++g->label_counter;`. -/
def cg_new_label (g : CG) : CG × Nat :=
  ({ g with label_counter := g.label_counter + 1 }, g.label_counter + 1)

/-- `cg_register_literal`: assign the next sequential id (`++g->lit_count`)
and prepend the record. -/
def cg_register_literal (g : CG) (s : String) : CG × Nat :=
  let id := g.lit_count + 1
  ({ g with lit_count := id, lits := ⟨s, id⟩ :: g.lits }, id)

/-- `fprintf(g->out, t)`: append `t` to the output text. -/
def emit (g : CG) (t : String) : CG := { g with out := g.out ++ t }

/-- An `errorf` inside codegen: fail carrying the bytes written so far. -/
def cg_fail {α : Type} (g : CG) (e : CgErr) : Except CgFail α := .error (g.out, e)

/-- C's `%+d` format: always print the sign. -/
def fmtPlus (i : Int) : String := if 0 ≤ i then "+" ++ toString i else toString i

/-- The `literal_%d` label of a pool entry. -/
def lit_label (id : Nat) : String := "literal_" ++ toString id

/-- The prologue text of `emit_prologue`. -/
def prologue_text : String :=
  "global main\nextern runtime_new_string\nextern runtime_print_int\nextern runtime_print_string\nextern runtime_clone_string\n\nsection .text\nmain:\n    push rbp\n    mov rbp, rsp\n"

/-- The epilogue text of `emit_epilogue`. -/
def epilogue_text : String :=
  "    mov eax, 0\n    mov rsp, rbp\n    pop rbp\n    ret\n"

/-- The text `cg_emit_string_literal` writes for a registered literal id,
per target ABI. -/
def string_literal_text (win : Bool) (litid : Nat) : String :=
  if win then
    "    ; create string " ++ lit_label litid ++ " (win64)\n" ++
    "    lea rcx, [rel " ++ lit_label litid ++ "]\n" ++
    "    sub rsp, 32\n    call runtime_new_string\n    add rsp, 32\n    push rax\n"
  else
    "    ; create string " ++ lit_label litid ++ " (sysv)\n" ++
    "    lea rdi, [rel " ++ lit_label litid ++ "]\n" ++
    "    call runtime_new_string\n    push rax\n"

/-- The runtime routine `emit_print_call_for_expr` dispatches to: string
print if the annotated type is string, integer print if it is integer,
string print if the node is a string literal, and integer print otherwise
(including a missing argument). -/
def print_callee (arg : Option Expr) : String :=
  match arg with
  | some a =>
      if a.type.kind = .TY_STRING then "runtime_print_string"
      else if a.type.kind = .TY_INT then "runtime_print_int"
      else
        match a with
        | .E_STR_LIT .. => "runtime_print_string"
        | _ => "runtime_print_int"
  | none => "runtime_print_int"

/-- The full text `emit_print_call_for_expr` writes: pop the argument,
move it into the ABI argument register (reserving shadow space on win64),
call the dispatched routine, then push the dummy zero result. -/
def print_call_text (win : Bool) (arg : Option Expr) : String :=
  "    pop rax\n" ++
  (if win then "    mov rcx, rax\n    sub rsp, 32\n" else "    mov rdi, rax\n") ++
  "    call " ++ print_callee arg ++ "\n" ++
  (if win then "    add rsp, 32\n" else "") ++
  "    push 0\n"

/-- `emit_print_call_for_expr` as a state transformer. -/
def emit_print_call_for_expr (g : CG) (arg : Option Expr) : CG :=
  emit g (print_call_text g.win64 arg)

/-- The text of a `clone` call lowering, per target ABI. -/
def clone_call_text (win : Bool) : String :=
  "    pop rax\n" ++
  (if win then
    "    mov rcx, rax\n    sub rsp, 32\n    call runtime_clone_string\n    add rsp, 32\n    push rax\n"
  else
    "    mov rdi, rax\n    call runtime_clone_string\n    push rax\n")

mutual

/-- `cg_emit_expr`: lowers one expression, leaving its one-word result
pushed. -/
def cg_emit_expr (g : CG) : Expr → Except CgFail CG
  | .E_INT_LIT v _ _ _ =>
      .ok (emit g ("    mov rax, " ++ toString v ++ "\n    push rax\n"))
  | .E_STR_LIT s _ _ _ =>
      let (g1, id) := cg_register_literal g s
      .ok (emit g1 (string_literal_text g1.win64 id))
  | .E_IDENT name l c _ =>
      match cg_find g name with
      | none => cg_fail g (.unknownIdentifier name l c)
      | some v =>
          .ok (emit g ("    mov rax, [rbp" ++ fmtPlus v.offset ++ "]\n    push rax\n"))
  | .E_CALL fn args l c _ => do
      let g1 ← cg_emit_args_rtl g args
      if fn = "print" then
        .ok (emit_print_call_for_expr g1 args.head?)
      else if fn = "clone" then
        .ok (emit g1 (clone_call_text g1.win64))
      else
        cg_fail g1 (.unknownFunction fn l c)
  | .E_ADDR inner l c _ =>
      match inner with
      | .E_IDENT iname _ _ _ =>
          match cg_find g iname with
          | none => cg_fail g (.unknownVarInAddr iname l c)
          | some v =>
              .ok (emit g ("    lea rax, [rbp" ++ fmtPlus v.offset ++ "]\n    push rax\n"))
      | _ => cg_fail g (.addrExpectsIdent l c)
  | .E_MUTADDR inner l c _ =>
      match inner with
      | .E_IDENT iname _ _ _ =>
          match cg_find g iname with
          | none => cg_fail g (.unknownVarInAddr iname l c)
          | some v =>
              .ok (emit g ("    lea rax, [rbp" ++ fmtPlus v.offset ++ "]\n    push rax\n"))
      | _ => cg_fail g (.addrExpectsIdent l c)
  | e => cg_fail g (.unsupportedExpr e.kindIdx e.line e.col)

/-- Call-argument evaluation, right to left (`for i = nargs-1; i >= 0`). -/
def cg_emit_args_rtl (g : CG) : List Expr → Except CgFail CG
  | [] => .ok g
  | a :: rest => do
      let g1 ← cg_emit_args_rtl g rest
      cg_emit_expr g1 a

end

mutual

/-- `cg_emit_stmt`: lowers one statement. -/
def cg_emit_stmt (g : CG) : Stmt → Except CgFail CG
  | .S_DECL name ty init _ _ =>
      let g1 := cg_add g name ty
      match cg_find g1 name with
      | none => cg_fail g1 .internalError
      | some v =>
          match init with
          | some e => do
              let g2 ← cg_emit_expr g1 e
              .ok (emit g2 ("    pop rax\n    mov [rbp" ++ fmtPlus v.offset ++ "], rax\n"))
          | none =>
              .ok (emit g1 ("    mov qword [rbp" ++ fmtPlus v.offset ++ "], 0\n"))
  | .S_EXPR e _ _ => do
      let g1 ← cg_emit_expr g e
      .ok (emit g1 "    add rsp, 8\n")
  | .S_BLOCK stmts _ _ => cg_emit_stmt_list g stmts
  | .S_IF cond th (some es) _ _ => do
      let (g1, lbl) := cg_new_label g
      let g2 ← cg_emit_expr g1 cond
      let g3 := emit g2 ("    pop rax\n    cmp rax, 0\n    je .Lelse" ++ toString lbl ++ "\n")
      let g4 ← cg_emit_stmt g3 th
      let g5 := emit g4 ("    jmp .Lend" ++ toString lbl ++ "\n.Lelse" ++ toString lbl ++ ":\n")
      let g6 ← cg_emit_stmt g5 es
      .ok (emit g6 (".Lend" ++ toString lbl ++ ":\n"))
  | .S_IF cond th none _ _ => do
      let (g1, lbl) := cg_new_label g
      let g2 ← cg_emit_expr g1 cond
      let g3 := emit g2 ("    pop rax\n    cmp rax, 0\n    je .Lelse" ++ toString lbl ++ "\n")
      let g4 ← cg_emit_stmt g3 th
      let g5 := emit g4 ("    jmp .Lend" ++ toString lbl ++ "\n.Lelse" ++ toString lbl ++ ":\n")
      .ok (emit g5 (".Lend" ++ toString lbl ++ ":\n"))
  | .S_WHILE cond body _ _ => do
      let (g1, lbl) := cg_new_label g
      let g2 := emit g1 (".Lwhile" ++ toString lbl ++ ":\n")
      let g3 ← cg_emit_expr g2 cond
      let g4 := emit g3 ("    pop rax\n    cmp rax, 0\n    je .Lendwhile" ++ toString lbl ++ "\n")
      let g5 ← cg_emit_stmt g4 body
      .ok (emit g5 ("    jmp .Lwhile" ++ toString lbl ++ "\n.Lendwhile" ++ toString lbl ++ ":\n"))
  | st => cg_fail g (.unsupportedStmt st.kindIdx)

/-- Sequential lowering of a block's statements. -/
def cg_emit_stmt_list (g : CG) : List Stmt → Except CgFail CG
  | [] => .ok g
  | st :: rest => do
      let g1 ← cg_emit_stmt g st
      cg_emit_stmt_list g1 rest

end

/-- The byte list of one literal as `emit_literals` prints it: each
character's code followed by a comma. -/
def lit_bytes (s : String) : String :=
  String.join (s.toList.map (fun ch => toString ch.toNat ++ ","))

/-- One `.data` record: `literal_<id>: db <bytes>0\n` — the characters
then the zero terminator, labeled by the id. -/
def lit_record (L : Lit) : String :=
  lit_label L.id ++ ": db " ++ lit_bytes L.s ++ "0\n"

/-- `emit_literals`: after the routine body, emit one record per pool
entry (nothing at all when the pool is empty). -/
def emit_literals (g : CG) : CG :=
  if g.lit_count = 0 then g
  else emit g ("\nsection .data\n" ++ String.join (g.lits.map lit_record))

/-- `codegen_function` up to the final state: open the output (empty),
prologue, body, epilogue, literal pool. -/
def codegen_run (win dbg : Bool) (f : Function) : Except CgFail CG := do
  let g0 : CG := ⟨win, "", 0, [], 0, dbg, [], 0⟩
  let g1 := emit g0 prologue_text
  let g2 ← cg_emit_stmt g1 f.body
  let g3 := emit g2 epilogue_text
  .ok (emit_literals g3)

/-- `codegen_function`: the text written to the output file. -/
def codegen_function (win dbg : Bool) (f : Function) : Except CgFail String :=
  (codegen_run win dbg f).map CG.out

/-! ## Pipeline (src/main.c)

`main` parses, runs `semantic_check`, then `codegen_function` (the borrow
checker is not wired into the driver). The first component is the output
artifact: `none` when the output file was never opened, `some text` for
the bytes it holds (also after a mid-generation failure, since `errorf`
exits with the written bytes flushed). The second is the single
diagnostic of a failed run. -/

/-- The diagnostic a failed compilation writes to stderr. -/
inductive Diag where
  | sem (e : SemErr)
  | cgen (e : CgErr)
deriving DecidableEq, Repr

/-- The stderr line of a pipeline diagnostic. -/
def renderDiag : Diag → String
  | .sem e => renderSem e
  | .cgen e => renderCg e

/-- The compilation pipeline of `main`: semantic analysis, then code
generation. Returns (output artifact, diagnostic). -/
def runPipeline (win dbg : Bool) (f : Function) : Option String × Option Diag :=
  match semantic_check f with
  | .error e => (none, some (.sem e))
  | .ok f2 =>
      match codegen_function win dbg f2 with
      | .ok txt => (some txt, none)
      | .error (txt, e) => (some txt, some (.cgen e))

/-! ## Auxiliary definitions for the claims: example programs and
spec-level predicates -/

/-- Shorthand for the parser's "no annotation" type. -/
def tUnk : Ty := mktype .TY_UNKNOWN

/-- Shorthand for a declared integer type. -/
def tInt : Ty := mktype .TY_INT

/-- The scope-release family of C1, parametrized by the initializer
value: `let a = <n>; { let r = &a; } let m = &mut a;`. -/
def scopeReleaseProg (n : Int) : Function :=
  ⟨"main", tUnk, .S_BLOCK [
    .S_DECL "a" tUnk (some (.E_INT_LIT n 1 9 tUnk)) 1 1,
    .S_BLOCK [.S_DECL "r" tUnk (some (.E_ADDR (.E_IDENT "a" 2 14 tUnk) 2 13 tUnk)) 2 5] 2 1,
    .S_DECL "m" tUnk (some (.E_MUTADDR (.E_IDENT "a" 3 18 tUnk) 3 9 tUnk)) 3 1] 1 1⟩

/-- `let a = 1; let b = a; print(a);` — a use of the moved `a` inside an
expression statement. -/
def movedUseStmtProg : Function :=
  ⟨"main", tUnk, .S_BLOCK [
    .S_DECL "a" tUnk (some (.E_INT_LIT 1 1 9 tUnk)) 1 1,
    .S_DECL "b" tUnk (some (.E_IDENT "a" 2 9 tUnk)) 2 1,
    .S_EXPR (.E_CALL "print" [.E_IDENT "a" 3 7 tUnk] 3 1 tUnk) 3 1] 1 1⟩

/-- `let a = 1; let b = a; let r = &a;` — a borrow of a moved variable. -/
def borrowMovedProg : Function :=
  ⟨"main", tUnk, .S_BLOCK [
    .S_DECL "a" tUnk (some (.E_INT_LIT 1 1 9 tUnk)) 1 1,
    .S_DECL "b" tUnk (some (.E_IDENT "a" 2 9 tUnk)) 2 1,
    .S_DECL "r" tUnk (some (.E_ADDR (.E_IDENT "a" 3 10 tUnk) 3 9 tUnk)) 3 1] 1 1⟩

/-- True exactly for the initializer shapes the borrow checker treats
specially in `S_DECL` (bare identifier, `&…`, `&mut …`). -/
def is_move_or_borrow_init : Expr → Bool
  | .E_IDENT .. => true
  | .E_ADDR .. => true
  | .E_MUTADDR .. => true
  | _ => false

/-- `let x: int = "hello";` -/
def mismatchProg : Function :=
  ⟨"main", tUnk, .S_BLOCK [
    .S_DECL "x" tInt (some (.E_STR_LIT "hello" 1 14 tUnk)) 1 1] 1 1⟩

/-- `let x = y;` with `y` undeclared. -/
def undeclProg : Function :=
  ⟨"main", tUnk, .S_BLOCK [
    .S_DECL "x" tUnk (some (.E_IDENT "y" 1 9 tUnk)) 1 1] 1 1⟩

/-- The diagnostic shape the claim announces:
`<file>:<line>:<col>: <category> error: <message>`. -/
def ClaimedDiagForm (file s : String) : Prop :=
  ∃ line col : Nat, ∃ cat msg : String,
    s = file ++ (":" ++ toString line ++ ":" ++ toString col ++ ": " ++
      cat ++ " error: " ++ msg)

/-- `let a = 5; for i in 0..3 {}` — passes the semantic analyzer (which
ignores `for` statements) and fails inside code generation. -/
def forLoopProg : Function :=
  ⟨"main", tUnk, .S_BLOCK [
    .S_DECL "a" tUnk (some (.E_INT_LIT 5 1 9 tUnk)) 1 1,
    .S_FOR "i" (.E_RANGE (.E_INT_LIT 0 2 10 tUnk) (.E_INT_LIT 3 2 13 tUnk) 2 10 tUnk)
      (.S_BLOCK [] 2 16) 2 1] 1 1⟩

/-- `print(5);` -/
def print5Prog : Function :=
  ⟨"main", tUnk, .S_BLOCK [
    .S_EXPR (.E_CALL "print" [.E_INT_LIT 5 1 7 tUnk] 1 1 tUnk) 1 1] 1 1⟩

/-- `print("hi");` -/
def printHiProg : Function :=
  ⟨"main", tUnk, .S_BLOCK [
    .S_EXPR (.E_CALL "print" [.E_STR_LIT "hi" 1 7 tUnk] 1 1 tUnk) 1 1] 1 1⟩

/-- The list `n, n-1, …, 1`: the pool ids as the sequential
`++g->lit_count` assignment produces them (newest first). -/
def countdown : Nat → List Nat
  | 0 => []
  | n + 1 => (n + 1) :: countdown n

/-- Invariant: the pool records, newest first, carry exactly the ids
`lit_count, …, 1`. -/
def lits_ok (g : CG) : Prop := g.lits.map Lit.id = countdown g.lit_count

/-! ## Helper lemmas -/

/-- Updating the first entry named `name` and then searching for `name`
yields the updated entry. -/
theorem find_var_update (vars : List VarInfo) (name : String) (f : VarInfo → VarInfo)
    (hf : ∀ w, (f w).name = w.name) :
    find_var (update_var vars name f) name = (find_var vars name).map f := by
  induction vars with
  | nil => simp [find_var, update_var]
  | cons v rest ih =>
      by_cases h : v.name = name
      · simp [find_var, update_var, h, hf v]
      · simp [find_var, update_var, h, ih]

/-- A lookup for a different name skips a freshly prepended variable. -/
theorem find_var_add_ne (s : BCState) (b : String) (ty : Ty) (x : String) (h : b ≠ x) :
    find_var (add_var s b ty).vars x = find_var s.vars x := by
  simp [add_var, find_var, h]

/-! ## Example programs -/

/-! ## C10 — shadowing by prepend-and-first-match in all three passes -/

/-- C10: in all three passes a re-declaration shadows the earlier binding:
the semantic symbol table, the borrow-checker variable list and the
codegen slot list prepend new entries and search front-to-back, so after
adding a binding for `name` — whatever entries, including same-named ones,
the table already held — looking `name` up yields exactly the new entry
(for codegen, the fresh slot 8 bytes deeper in the frame). -/
theorem C10_shadowing :
    (∀ (t : SymTable) (name : String) (ty : Ty) (line : Nat),
      sym_find (sym_add t name ty line) name = some ⟨name, ty, line⟩) ∧
    (∀ (s : BCState) (name : String) (ty : Ty),
      find_var (add_var s name ty).vars name = some ⟨name, ty, true, 0, false, s.depth⟩) ∧
    (∀ (g : CG) (name : String) (ty : Ty),
      cg_find (cg_add g name ty) name = some ⟨name, -((g.stack_size : Int) + 8), ty⟩) ∧
    (∀ (e : Sym) (t : SymTable) (name : String),
      sym_find (e :: t) name = if e.name = name then some e else sym_find t name) ∧
    (∀ (v : VarInfo) (vs : List VarInfo) (name : String),
      find_var (v :: vs) name = if v.name = name then some v else find_var vs name) := by
  refine ⟨?_, ?_, ?_, ?_, ?_⟩
  · intro t name ty line; simp [sym_add, sym_find]
  · intro s name ty; simp [add_var, find_var]
  · intro g name ty
    simp [cg_add, cg_find, cg_find.go]
  · intro e t name; simp [sym_find]
  · intro v vs name; simp [find_var]

/-! ## C1 — borrow release at scope exit -/

/-- C1 counterexample: on `let a = 1; { let r = &a; } let m = &mut a;`
the Borrow Checker does not accept the `&mut a` after the inner block —
it rejects it with a `ConflictingBorrow` diagnostic. -/
theorem C1_scope_release_counterexample :
    borrow_check (scopeReleaseProg 1) =
      .error ⟨.ConflictingBorrow, "cannot mutably borrow 'a' (already borrowed)", 3, 1⟩ := rfl

/-- C1 (amended): leaving the inner block removes `r`'s own tracking
entry, but the shared-borrow count that `r` contributed is recorded on
`a`'s entry, which survives in the outer scope and is never decremented;
the `let m = &mut a;` after the block therefore fails with
`ConflictingBorrow` for every initializer value. -/
theorem C1_scope_release_amended (n : Int) :
    borrow_check (scopeReleaseProg n) =
      .error ⟨.ConflictingBorrow, "cannot mutably borrow 'a' (already borrowed)", 3, 1⟩ := rfl

/-! ## C4 — move semantics -/

/-- C4 counterexample: on `let a = 1; let b = a; print(a);` the claim
demands a `UseOfMovedValue` failure at the use of `a`, but the Borrow
Checker accepts the program — its statement visitor has no case for
expression statements, so the use of the moved `a` is never examined. -/
theorem C4_move_counterexample :
    borrow_check movedUseStmtProg = .ok ⟨[], 0⟩ := rfl

/-- C4 (amended): a variable is moved exactly when it is the entire
right-hand side of a declaration whose initializer is a bare identifier;
the move is rejected with `MoveWhileBorrowed` when the source has a
positive shared-borrow count or an outstanding exclusive borrow; after a
successful move, further uses of the source in positions the checker
visits — a later move source, a borrow source, or an identifier
expression reached through a declaration initializer or an `if`/`while`
condition — fail with `UseOfMovedValue`; but expression statements are
not traversed at all, so uses of a moved variable there are accepted. -/
theorem C4_move_semantics :
    -- (1) a bare-identifier initializer moves the (unborrowed) source:
    -- the declaration succeeds and the source's entry is invalidated.
    (∀ (s : BCState) (b : String) (ty : Ty) (x : String) (l c l2 c2 : Nat)
        (ty2 : Ty) (v : VarInfo),
      find_var s.vars x = some v → v.valid = true → v.imm_count = 0 →
      v.mut_borrowed = false → b ≠ x →
      ∃ s2, visit_stmt s (.S_DECL b ty (some (.E_IDENT x l2 c2 ty2)) l c) = .ok s2 ∧
        find_var s2.vars x = some { v with valid := false }) ∧
    -- (2) moving a borrowed source fails with MoveWhileBorrowed.
    (∀ (s : BCState) (b : String) (ty : Ty) (x : String) (l c l2 c2 : Nat)
        (ty2 : Ty) (v : VarInfo),
      find_var s.vars x = some v → v.valid = true →
      (0 < v.imm_count ∨ v.mut_borrowed = true) →
      visit_stmt s (.S_DECL b ty (some (.E_IDENT x l2 c2 ty2)) l c) =
        .error ⟨.MoveWhileBorrowed, "cannot move " ++ sq x ++ " because it is borrowed", l, c⟩) ∧
    -- (3) after a move: identifier expressions in visited positions,
    -- later move sources, and borrow sources all fail with UseOfMovedValue.
    (∀ (s : BCState) (x : String) (v : VarInfo),
      find_var s.vars x = some v → v.valid = false →
      (∀ (l2 c2 : Nat) (ty2 : Ty),
        visit_expr s (.E_IDENT x l2 c2 ty2) =
          .error ⟨.UseOfMovedValue, "use of moved value " ++ sq x, l2, c2⟩) ∧
      (∀ (b : String) (ty : Ty) (l c l2 c2 : Nat) (ty2 : Ty),
        visit_stmt s (.S_DECL b ty (some (.E_IDENT x l2 c2 ty2)) l c) =
          .error ⟨.UseOfMovedValue, "use of moved value " ++ sq x, l, c⟩) ∧
      (∀ (b : String) (ty : Ty) (l c l2 c2 l3 c3 : Nat) (ty2 ty3 : Ty),
        visit_stmt s (.S_DECL b ty (some (.E_ADDR (.E_IDENT x l3 c3 ty3) l2 c2 ty2)) l c) =
          .error ⟨.UseOfMovedValue, "borrow of moved value " ++ sq x, l, c⟩) ∧
      (∀ (b : String) (ty : Ty) (l c l2 c2 l3 c3 : Nat) (ty2 ty3 : Ty),
        visit_stmt s (.S_DECL b ty (some (.E_MUTADDR (.E_IDENT x l3 c3 ty3) l2 c2 ty2)) l c) =
          .error ⟨.UseOfMovedValue, "mut borrow of moved value " ++ sq x, l, c⟩)) ∧
    -- (4) only those initializer shapes move: any other accepted
    -- initializer leaves every existing entry untouched.
    (∀ (s : BCState) (b : String) (ty : Ty) (ini : Expr) (l c : Nat),
      is_move_or_borrow_init ini = false → visit_expr s ini = .ok () →
      visit_stmt s (.S_DECL b ty (some ini) l c) = .ok (add_var s b ty)) ∧
    -- (5) the amendment: expression statements are never visited.
    (∀ (s : BCState) (e : Expr) (l c : Nat),
      visit_stmt s (.S_EXPR e l c) = .ok s) := by
  refine ⟨?_, ?_, ?_, ?_, ?_⟩
  · intro s b ty x l c l2 c2 ty2 v hfind hvalid himm hmut hne
    refine ⟨add_var
        { s with vars := update_var s.vars x (fun w => { w with valid := false }) } b ty,
      ?_, ?_⟩
    · simp [visit_stmt, hfind, hvalid, himm, hmut]
    · rw [find_var_add_ne _ _ _ _ hne,
        find_var_update s.vars x (fun w => { w with valid := false }) (fun w => rfl), hfind]
      rfl
  · intro s b ty x l c l2 c2 ty2 v hfind hvalid hb
    rcases hb with hb | hb
    · simp [visit_stmt, hfind, hvalid, Nat.pos_iff_ne_zero.mp hb]
    · simp [visit_stmt, hfind, hvalid, hb]
  · intro s x v hfind hvalid
    refine ⟨?_, ?_, ?_, ?_⟩
    · intro l2 c2 ty2; simp [visit_expr, hfind, hvalid]
    · intro b ty l c l2 c2 ty2; simp [visit_stmt, hfind, hvalid]
    · intro b ty l c l2 c2 l3 c3 ty2 ty3; simp [visit_stmt, hfind, hvalid]
    · intro b ty l c l2 c2 l3 c3 ty2 ty3; simp [visit_stmt, hfind, hvalid]
  · intro s b ty ini l c hshape hok
    cases ini <;> simp_all [is_move_or_borrow_init, visit_stmt] <;> rfl
  · intro s e l c; simp [visit_stmt]

/-! ## C5 — declaration-initializer borrows -/

/-- C5 counterexample: on `let a = 1; let b = a; let r = &a;` the borrow
of the moved `a` violates the "not moved" requirement, but the failure is
a `UseOfMovedValue` diagnostic ("borrow of moved value"), not the
`ConflictingBorrow` the claim announces for every violation. -/
theorem C5_borrow_counterexample :
    borrow_check borrowMovedProg =
      .error ⟨.UseOfMovedValue, "borrow of moved value 'a'", 3, 1⟩ := rfl

/-- C5 (amended): a declaration-initializer borrow `&x` succeeds iff `x`
is tracked, not moved and not exclusively borrowed (any number of shared
borrows may coexist), and `&mut x` succeeds iff `x` is tracked, not
moved, with zero shared borrows and no exclusive borrow; but only the
borrow-conflict violations fail with `ConflictingBorrow` — an untracked
`x` fails with `UndeclaredVariable` and a moved `x` with
`UseOfMovedValue`. -/
theorem C5_decl_borrows :
    -- shared borrow `let b = &x;`
    (∀ (s : BCState) (b : String) (ty : Ty) (x : String) (l c l2 c2 l3 c3 : Nat)
        (ty2 ty3 : Ty),
      (find_var s.vars x = none →
        visit_stmt s (.S_DECL b ty (some (.E_ADDR (.E_IDENT x l3 c3 ty3) l2 c2 ty2)) l c) =
          .error ⟨.UndeclaredVariable, "borrow of undeclared " ++ sq x, l, c⟩) ∧
      (∀ v, find_var s.vars x = some v → v.valid = false →
        visit_stmt s (.S_DECL b ty (some (.E_ADDR (.E_IDENT x l3 c3 ty3) l2 c2 ty2)) l c) =
          .error ⟨.UseOfMovedValue, "borrow of moved value " ++ sq x, l, c⟩) ∧
      (∀ v, find_var s.vars x = some v → v.valid = true → v.mut_borrowed = true →
        visit_stmt s (.S_DECL b ty (some (.E_ADDR (.E_IDENT x l3 c3 ty3) l2 c2 ty2)) l c) =
          .error ⟨.ConflictingBorrow,
            "cannot shared-borrow " ++ sq x ++ " while mutably borrowed", l, c⟩) ∧
      (∀ v, find_var s.vars x = some v → v.valid = true → v.mut_borrowed = false →
        b ≠ x →
        ∃ s2, visit_stmt s (.S_DECL b ty (some (.E_ADDR (.E_IDENT x l3 c3 ty3) l2 c2 ty2)) l c) =
            .ok s2 ∧
          find_var s2.vars x = some { v with imm_count := v.imm_count + 1 })) ∧
    -- exclusive borrow `let b = &mut x;`
    (∀ (s : BCState) (b : String) (ty : Ty) (x : String) (l c l2 c2 l3 c3 : Nat)
        (ty2 ty3 : Ty),
      (find_var s.vars x = none →
        visit_stmt s (.S_DECL b ty (some (.E_MUTADDR (.E_IDENT x l3 c3 ty3) l2 c2 ty2)) l c) =
          .error ⟨.UndeclaredVariable, "mut borrow of undeclared " ++ sq x, l, c⟩) ∧
      (∀ v, find_var s.vars x = some v → v.valid = false →
        visit_stmt s (.S_DECL b ty (some (.E_MUTADDR (.E_IDENT x l3 c3 ty3) l2 c2 ty2)) l c) =
          .error ⟨.UseOfMovedValue, "mut borrow of moved value " ++ sq x, l, c⟩) ∧
      (∀ v, find_var s.vars x = some v → v.valid = true →
        (0 < v.imm_count ∨ v.mut_borrowed = true) →
        visit_stmt s (.S_DECL b ty (some (.E_MUTADDR (.E_IDENT x l3 c3 ty3) l2 c2 ty2)) l c) =
          .error ⟨.ConflictingBorrow,
            "cannot mutably borrow " ++ sq x ++ " (already borrowed)", l, c⟩) ∧
      (∀ v, find_var s.vars x = some v → v.valid = true → v.imm_count = 0 →
        v.mut_borrowed = false → b ≠ x →
        ∃ s2, visit_stmt s (.S_DECL b ty (some (.E_MUTADDR (.E_IDENT x l3 c3 ty3) l2 c2 ty2)) l c) =
            .ok s2 ∧
          find_var s2.vars x = some { v with mut_borrowed := true })) := by
  constructor
  · intro s b ty x l c l2 c2 l3 c3 ty2 ty3
    refine ⟨?_, ?_, ?_, ?_⟩
    · intro hfind; simp [visit_stmt, hfind]
    · intro v hfind hvalid; simp [visit_stmt, hfind, hvalid]
    · intro v hfind hvalid hmut; simp [visit_stmt, hfind, hvalid, hmut]
    · intro v hfind hvalid hmut hne
      refine ⟨add_var
          { s with vars := update_var s.vars x (fun w => { w with imm_count := w.imm_count + 1 }) }
          b ty, ?_, ?_⟩
      · simp [visit_stmt, hfind, hvalid, hmut]
      · rw [find_var_add_ne _ _ _ _ hne,
          find_var_update s.vars x (fun w => { w with imm_count := w.imm_count + 1 })
            (fun w => rfl), hfind]
        rfl
  · intro s b ty x l c l2 c2 l3 c3 ty2 ty3
    refine ⟨?_, ?_, ?_, ?_⟩
    · intro hfind; simp [visit_stmt, hfind]
    · intro v hfind hvalid; simp [visit_stmt, hfind, hvalid]
    · intro v hfind hvalid hb
      rcases hb with hb | hb
      · simp [visit_stmt, hfind, hvalid, Nat.pos_iff_ne_zero.mp hb]
      · simp [visit_stmt, hfind, hvalid, hb]
    · intro v hfind hvalid himm hmut hne
      refine ⟨add_var
          { s with vars := update_var s.vars x (fun w => { w with mut_borrowed := true }) }
          b ty, ?_, ?_⟩
      · simp [visit_stmt, hfind, hvalid, himm, hmut]
      · rw [find_var_add_ne _ _ _ _ hne,
          find_var_update s.vars x (fun w => { w with mut_borrowed := true })
            (fun w => rfl), hfind]
        rfl

/-- C4 witness: instantiating the move rules at a concrete tracked state
in which `a` is valid and unborrowed. -/
theorem C4_move_semantics_witness :
    (∃ s2, visit_stmt ⟨[⟨"a", tUnk, true, 0, false, 1⟩], 1⟩
        (.S_DECL "b" tUnk (some (.E_IDENT "a" 2 9 tUnk)) 2 1) = .ok s2 ∧
      find_var s2.vars "a" = some ⟨"a", tUnk, false, 0, false, 1⟩) ∧
    visit_stmt ⟨[⟨"a", tUnk, true, 2, false, 1⟩], 1⟩
        (.S_DECL "b" tUnk (some (.E_IDENT "a" 2 9 tUnk)) 2 1) =
      .error ⟨.MoveWhileBorrowed, "cannot move 'a' because it is borrowed", 2, 1⟩ ∧
    visit_expr ⟨[⟨"a", tUnk, false, 0, false, 1⟩], 1⟩ (.E_IDENT "a" 3 7 tUnk) =
      .error ⟨.UseOfMovedValue, "use of moved value 'a'", 3, 7⟩ := by
  refine ⟨?_, ?_, ?_⟩
  · exact C4_move_semantics.1 ⟨[⟨"a", tUnk, true, 0, false, 1⟩], 1⟩ "b" tUnk "a" 2 1 2 9 tUnk
      ⟨"a", tUnk, true, 0, false, 1⟩ rfl rfl rfl rfl (by decide)
  · exact C4_move_semantics.2.1 ⟨[⟨"a", tUnk, true, 2, false, 1⟩], 1⟩ "b" tUnk "a" 2 1 2 9 tUnk
      ⟨"a", tUnk, true, 2, false, 1⟩ rfl rfl (Or.inl (by decide))
  · exact (C4_move_semantics.2.2.1 ⟨[⟨"a", tUnk, false, 0, false, 1⟩], 1⟩ "a"
      ⟨"a", tUnk, false, 0, false, 1⟩ rfl rfl).1 3 7 tUnk

/-- C5 witness: a third shared borrow of an already twice-shared `a`
succeeds (counts coexist), and an exclusive borrow of the same state is
a `ConflictingBorrow`. -/
theorem C5_decl_borrows_witness :
    (∃ s2, visit_stmt ⟨[⟨"a", tUnk, true, 2, false, 1⟩], 1⟩
        (.S_DECL "r" tUnk (some (.E_ADDR (.E_IDENT "a" 3 10 tUnk) 3 9 tUnk)) 3 1) = .ok s2 ∧
      find_var s2.vars "a" = some ⟨"a", tUnk, true, 3, false, 1⟩) ∧
    visit_stmt ⟨[⟨"a", tUnk, true, 2, false, 1⟩], 1⟩
        (.S_DECL "m" tUnk (some (.E_MUTADDR (.E_IDENT "a" 4 18 tUnk) 4 9 tUnk)) 4 1) =
      .error ⟨.ConflictingBorrow, "cannot mutably borrow 'a' (already borrowed)", 4, 1⟩ := by
  constructor
  · exact ((C5_decl_borrows.1 ⟨[⟨"a", tUnk, true, 2, false, 1⟩], 1⟩ "r" tUnk "a"
      3 1 3 9 3 10 tUnk tUnk).2.2.2 ⟨"a", tUnk, true, 2, false, 1⟩ rfl rfl rfl (by decide))
  · exact ((C5_decl_borrows.2 ⟨[⟨"a", tUnk, true, 2, false, 1⟩], 1⟩ "m" tUnk "a"
      4 1 4 9 4 18 tUnk tUnk).2.2.1 ⟨"a", tUnk, true, 2, false, 1⟩ rfl rfl
      (Or.inl (by decide)))

/-! ## C6 — declaration type checking -/

/-- The Bool compatibility test agrees with its propositional reading. -/
theorem declCompat_iff (t it : Ty) :
    declCompat t it = true ↔
      (t.kind = it.kind ∨ (t.kind = .TY_REF ∧ it.kind = .TY_REF)) := by
  simp [declCompat]

/-- C6: for a declaration with an initializer the analyzer infers the
initializer's type; an unknown annotation adopts it, two known types
must have equal kinds — so any two shared references, or any two
exclusive references, are compatible regardless of pointee — and a
mismatch fails with `TypeMismatch` before code generation runs (the
pipeline produces no artifact); on success the variable enters the
current scope with the resolved type. -/
theorem C6_decl_typing :
    -- unknown annotation: adopt the inferred type.
    (∀ (sym : SymTable) (name : String) (t : Ty) (e e2 : Expr) (it : Ty) (l c : Nat),
      infer_expr sym e = .ok (e2, it) → t.kind = .TY_UNKNOWN →
      sem_stmt sym (.S_DECL name t (some e) l c) =
        .ok (.S_DECL name t (some e2) l c, sym_add sym name it l)) ∧
    -- both known and compatible: keep the declared type.
    (∀ (sym : SymTable) (name : String) (t : Ty) (e e2 : Expr) (it : Ty) (l c : Nat),
      infer_expr sym e = .ok (e2, it) → t.kind ≠ .TY_UNKNOWN →
      (t.kind = it.kind ∨ (t.kind = .TY_REF ∧ it.kind = .TY_REF)) →
      sem_stmt sym (.S_DECL name t (some e) l c) =
        .ok (.S_DECL name t (some e2) l c, sym_add sym name t l)) ∧
    -- shallow reference compatibility: equal reference kinds succeed
    -- whatever the two pointee types are.
    (∀ (sym : SymTable) (name : String) (k : TypeKind) (p q : Ty) (e e2 : Expr) (l c : Nat),
      infer_expr sym e = .ok (e2, .withInner k q) → k ≠ .TY_UNKNOWN →
      sem_stmt sym (.S_DECL name (.withInner k p) (some e) l c) =
        .ok (.S_DECL name (.withInner k p) (some e2) l c,
          sym_add sym name (.withInner k p) l)) ∧
    -- incompatible known types: TypeMismatch.
    (∀ (sym : SymTable) (name : String) (t : Ty) (e e2 : Expr) (it : Ty) (l c : Nat),
      infer_expr sym e = .ok (e2, it) → t.kind ≠ .TY_UNKNOWN →
      ¬(t.kind = it.kind ∨ (t.kind = .TY_REF ∧ it.kind = .TY_REF)) →
      sem_stmt sym (.S_DECL name t (some e) l c) = .error (.typeMismatch name l c)) ∧
    -- `let x: int = "hello";` fails with TypeMismatch and never reaches
    -- code generation: the pipeline emits that diagnostic and no artifact.
    runPipeline false false mismatchProg = (none, some (.sem (.typeMismatch "x" 1 1))) := by
  refine ⟨?_, ?_, ?_, ?_, rfl⟩
  · intro sym name t e e2 it l c hinf ht
    simp [sem_stmt, hinf, ht, bind, Except.bind]
  · intro sym name t e e2 it l c hinf ht hcompat
    have hc : declCompat t it = true := (declCompat_iff t it).mpr hcompat
    simp [sem_stmt, hinf, ht, hc, bind, Except.bind]
  · intro sym name k p q e e2 l c hinf hk
    have ht : (Ty.withInner k p).kind ≠ .TY_UNKNOWN := by simpa [Ty.kind] using hk
    have hc : declCompat (.withInner k p) (.withInner k q) = true := by
      simp [declCompat, Ty.kind]
    simp [sem_stmt, hinf, ht, hc, bind, Except.bind]
  · intro sym name t e e2 it l c hinf ht hcompat
    have hc : declCompat t it = false :=
      Bool.eq_false_iff.mpr (fun h => hcompat ((declCompat_iff t it).mp h))
    simp [sem_stmt, hinf, ht, hc, bind, Except.bind]

/-- C6 witness: concrete instances — inference adoption, exclusive
references compatible despite different pointees, and an int/string
mismatch. -/
theorem C6_decl_typing_witness :
    sem_stmt [] (.S_DECL "x" tUnk (some (.E_INT_LIT 7 1 9 tUnk)) 1 1) =
      .ok (.S_DECL "x" tUnk (some (.E_INT_LIT 7 1 9 tInt)) 1 1, sym_add [] "x" tInt 1) ∧
    sem_stmt [⟨"a", tInt, 1⟩] (.S_DECL "r" (.withInner .TY_MUTREF (mktype .TY_STRING))
        (some (.E_MUTADDR (.E_IDENT "a" 2 18 tUnk) 2 13 tUnk)) 2 1) =
      .ok (.S_DECL "r" (.withInner .TY_MUTREF (mktype .TY_STRING))
          (some (.E_MUTADDR (.E_IDENT "a" 2 18 tInt) 2 13 (.withInner .TY_MUTREF tInt))) 2 1,
        sym_add [⟨"a", tInt, 1⟩] "r" (.withInner .TY_MUTREF (mktype .TY_STRING)) 2) ∧
    sem_stmt [] (.S_DECL "x" tInt (some (.E_STR_LIT "hello" 1 14 tUnk)) 1 1) =
      .error (.typeMismatch "x" 1 1) := by
  refine ⟨?_, ?_, ?_⟩
  · exact C6_decl_typing.1 [] "x" tUnk (.E_INT_LIT 7 1 9 tUnk) (.E_INT_LIT 7 1 9 tInt)
      tInt 1 1 rfl rfl
  · exact C6_decl_typing.2.2.1 [⟨"a", tInt, 1⟩] "r" .TY_MUTREF (mktype .TY_STRING) tInt
      (.E_MUTADDR (.E_IDENT "a" 2 18 tUnk) 2 13 tUnk)
      (.E_MUTADDR (.E_IDENT "a" 2 18 tInt) 2 13 (.withInner .TY_MUTREF tInt))
      2 1 rfl (by decide)
  · exact C6_decl_typing.2.2.2.1 [] "x" tInt (.E_STR_LIT "hello" 1 14 tUnk)
      (.E_STR_LIT "hello" 1 14 (mktype .TY_STRING)) (mktype .TY_STRING) 1 1 rfl
      (by decide) (by decide)

/-! ## C7 — built-in call validation -/

/-- C7: the analyzer accepts a call iff it is `clone` with one argument
inferring to string (result string) or `print` with one inferring
argument (result integer); `clone` with wrong arity or a non-string
argument fails with its descriptive diagnostic, `print` with wrong arity
likewise, and every other callee name fails with `UnknownFunction`. -/
theorem C7_builtin_calls :
    -- any other call name: UnknownFunction (arguments never inspected).
    (∀ (sym : SymTable) (fn : String) (args : List Expr) (l c : Nat) (ty : Ty),
      fn ≠ "clone" → fn ≠ "print" →
      infer_expr sym (.E_CALL fn args l c ty) = .error (.unknownFunction fn l c)) ∧
    -- clone of one string-typed argument: accepted, result string.
    (∀ (sym : SymTable) (a a2 : Expr) (ta : Ty) (l c : Nat) (ty : Ty),
      infer_expr sym a = .ok (a2, ta) → ta.kind = .TY_STRING →
      infer_expr sym (.E_CALL "clone" [a] l c ty) =
        .ok (.E_CALL "clone" [a2] l c (mktype .TY_STRING), mktype .TY_STRING)) ∧
    -- clone of a non-string argument: descriptive error.
    (∀ (sym : SymTable) (a a2 : Expr) (ta : Ty) (l c : Nat) (ty : Ty),
      infer_expr sym a = .ok (a2, ta) → ta.kind ≠ .TY_STRING →
      infer_expr sym (.E_CALL "clone" [a] l c ty) = .error (.cloneNonString l c)) ∧
    -- clone with any arity other than one: descriptive error.
    (∀ (sym : SymTable) (args : List Expr) (l c : Nat) (ty : Ty),
      args.length ≠ 1 →
      infer_expr sym (.E_CALL "clone" args l c ty) = .error (.cloneArity l c)) ∧
    -- print of one argument of any inferring type: accepted, result int.
    (∀ (sym : SymTable) (a a2 : Expr) (ta : Ty) (l c : Nat) (ty : Ty),
      infer_expr sym a = .ok (a2, ta) →
      infer_expr sym (.E_CALL "print" [a] l c ty) =
        .ok (.E_CALL "print" [a2] l c (mktype .TY_INT), mktype .TY_INT)) ∧
    -- print with any arity other than one: rejected.
    (∀ (sym : SymTable) (args : List Expr) (l c : Nat) (ty : Ty),
      args.length ≠ 1 →
      infer_expr sym (.E_CALL "print" args l c ty) = .error (.printArity l c)) := by
  refine ⟨?_, ?_, ?_, ?_, ?_, ?_⟩
  · intro sym fn args l c ty h1 h2
    rw [infer_expr.eq_def]
    simp [h1, h2]
  · intro sym a a2 ta l c ty hinf hstr
    simp [infer_expr, hinf, hstr, bind, Except.bind]
  · intro sym a a2 ta l c ty hinf hstr
    simp [infer_expr, hinf, hstr, bind, Except.bind]
  · intro sym args l c ty hlen
    match args with
    | [] => simp [infer_expr]
    | [a] => exact absurd (by simp : ([a] : List Expr).length = 1) hlen
    | a :: b :: rest => simp [infer_expr]
  · intro sym a a2 ta l c ty hinf
    simp [infer_expr, hinf, bind, Except.bind]
  · intro sym args l c ty hlen
    match args with
    | [] => simp [infer_expr]
    | [a] => exact absurd (by simp : ([a] : List Expr).length = 1) hlen
    | a :: b :: rest => simp [infer_expr]

/-- C7 witness: concrete built-in calls — `clone` of a string literal,
`clone` of an integer, zero-argument `clone`, `print` of an integer, and
a call to an unknown `foo`. -/
theorem C7_builtin_calls_witness :
    infer_expr [] (.E_CALL "clone" [.E_STR_LIT "s" 1 7 tUnk] 1 1 tUnk) =
      .ok (.E_CALL "clone" [.E_STR_LIT "s" 1 7 (mktype .TY_STRING)] 1 1
        (mktype .TY_STRING), mktype .TY_STRING) ∧
    infer_expr [] (.E_CALL "clone" [.E_INT_LIT 3 1 7 tUnk] 1 1 tUnk) =
      .error (.cloneNonString 1 1) ∧
    infer_expr [] (.E_CALL "clone" [] 1 1 tUnk) = .error (.cloneArity 1 1) ∧
    infer_expr [] (.E_CALL "print" [.E_INT_LIT 5 1 7 tUnk] 1 1 tUnk) =
      .ok (.E_CALL "print" [.E_INT_LIT 5 1 7 tInt] 1 1 (mktype .TY_INT), mktype .TY_INT) ∧
    infer_expr [] (.E_CALL "foo" [] 1 1 tUnk) = .error (.unknownFunction "foo" 1 1) := by
  refine ⟨?_, ?_, ?_, ?_, ?_⟩
  · exact C7_builtin_calls.2.1 [] (.E_STR_LIT "s" 1 7 tUnk)
      (.E_STR_LIT "s" 1 7 (mktype .TY_STRING)) (mktype .TY_STRING) 1 1 tUnk rfl rfl
  · exact C7_builtin_calls.2.2.1 [] (.E_INT_LIT 3 1 7 tUnk) (.E_INT_LIT 3 1 7 tInt)
      tInt 1 1 tUnk rfl (by decide)
  · exact C7_builtin_calls.2.2.2.1 [] [] 1 1 tUnk (by decide)
  · exact C7_builtin_calls.2.2.2.2.1 [] (.E_INT_LIT 5 1 7 tUnk) (.E_INT_LIT 5 1 7 tInt)
      tInt 1 1 tUnk rfl
  · exact C7_builtin_calls.1 [] "foo" [] 1 1 tUnk (by decide) (by decide)

/-! ## C2 — diagnostic format and single-error termination -/

/-- Any diagnostic of the claimed shape has a colon right after the file
name. -/
theorem claimed_form_colon (file s : String) (h : ClaimedDiagForm file s) :
    s.data[file.data.length]? = some ':' := by
  obtain ⟨l, c, cat, msg, heq⟩ := h
  subst heq
  rw [String.data_append, List.getElem?_append_right (le_refl _), Nat.sub_self]
  simp only [String.append_assoc, String.data_append]
  simp

/-- C2 counterexample: a failing run (undeclared variable) emits the
semantic diagnostic `Semantic error: use of undeclared variable 'y' at
1:9`, which does not have the claimed `<file>:<line>:<col>: <category>
error: <message>` shape for the input file `test.my` — the position is at
the end and no file name is printed. -/
theorem C2_diag_format_counterexample :
    runPipeline false false undeclProg = (none, some (.sem (.undeclaredVariable "y" 1 9))) ∧
    ¬ ClaimedDiagForm "test.my" (renderDiag (.sem (.undeclaredVariable "y" 1 9))) := by
  refine ⟨rfl, fun h => absurd (claimed_form_colon _ _ h) (by decide)⟩

/-- C2 (amended): every failing run emits exactly one diagnostic — the
first error in traversal order — and terminates before any later pass
runs (a semantic failure produces no code-generation output at all); the
Borrow Checker's diagnostics do have the claimed
`<file>:<line>:<col>: <category> error: <message>` shape, but the
semantic analyzer's diagnostics print their position at the end
(`… at <line>:<col>`) instead and never the file name, and the code
generator's do likewise except its unsupported-statement and internal
errors, which carry no source position at all. -/
theorem C2_diag_format :
    -- every borrow diagnostic has the claimed form, with category "borrow".
    (∀ (file : String) (e : BCErr), ClaimedDiagForm file (renderBC file e)) ∧
    -- a semantic failure stops the pipeline before code generation:
    -- the single diagnostic is the semantic one and no artifact exists.
    (∀ (w d : Bool) (f : Function) (e : SemErr),
      (runPipeline w d f).2 = some (.sem e) → (runPipeline w d f).1 = none) ∧
    -- every semantic diagnostic ends in " at <line>:<col>\n" instead:
    (∀ e : SemErr, ∃ body, ∃ l c : Nat, renderSem e = body ++ atPos l c) ∧
    -- every codegen diagnostic other than the unsupported-statement and
    -- internal errors also ends in " at <line>:<col>\n":
    (∀ e : CgErr, (∀ k : Nat, e ≠ .unsupportedStmt k) → e ≠ .internalError →
      ∃ body, ∃ l c : Nat, renderCg e = body ++ atPos l c) ∧
    -- those two carry no position: their full diagnostic lines are
    -- `codegen: unsupported stmt kind <k>` and `internal codegen error`.
    (∀ k : Nat, renderCg (.unsupportedStmt k) =
      "codegen: unsupported stmt kind " ++ toString k ++ "\n") ∧
    renderCg .internalError = "internal codegen error\n" := by
  refine ⟨?_, ?_, ?_, ?_, fun k => rfl, rfl⟩
  · intro file e
    refine ⟨e.line, e.col, "borrow", e.msg ++ "\n", ?_⟩
    simp [renderBC, String.append_assoc]
  · intro w d f e h
    unfold runPipeline at h ⊢
    cases hs : semantic_check f with
    | error e2 => simp [hs]
    | ok f2 =>
        rw [hs] at h
        cases hcg : codegen_function w d f2 with
        | ok txt => simp [hcg] at h
        | error p =>
            obtain ⟨txt, e3⟩ := p
            simp [hcg] at h
  · intro e
    cases e <;> exact ⟨_, _, _, rfl⟩
  · intro e h1 h2
    cases e with
    | unsupportedStmt k => exact absurd rfl (h1 k)
    | internalError => exact absurd rfl h2
    | unknownIdentifier name l c => exact ⟨_, _, _, rfl⟩
    | unknownFunction name l c => exact ⟨_, _, _, rfl⟩
    | addrExpectsIdent l c => exact ⟨_, _, _, rfl⟩
    | unknownVarInAddr name l c => exact ⟨_, _, _, rfl⟩
    | unsupportedExpr k l c => exact ⟨_, _, _, rfl⟩

/-- C2 witness: the borrow-form instance at a concrete diagnostic, the
stop-before-codegen instance at the undeclared-variable program, and the
position-at-end instance at a concrete positioned codegen diagnostic. -/
theorem C2_diag_format_witness :
    ClaimedDiagForm "a.my" (renderBC "a.my" ⟨.ConflictingBorrow, "conflict", 2, 5⟩) ∧
    (runPipeline false false undeclProg).1 = none ∧
    (∃ body, ∃ l c : Nat,
      renderCg (.unknownIdentifier "x" 2 3) = body ++ atPos l c) :=
  ⟨C2_diag_format.1 "a.my" ⟨.ConflictingBorrow, "conflict", 2, 5⟩,
   C2_diag_format.2.1 false false undeclProg (.undeclaredVariable "y" 1 9) rfl,
   C2_diag_format.2.2.2.1 (.unknownIdentifier "x" 2 3)
     (fun k h => CgErr.noConfusion h) (fun h => CgErr.noConfusion h)⟩

/-! ## C3 — output artifacts of failed runs -/

/-- C3 counterexample: the for-loop program fails in code generation with
`UnsupportedConstruct` (stmt kind 4), yet the failed run leaves a
non-empty output artifact — the prologue and the lowered declaration
written before the error. -/
theorem C3_no_artifact_counterexample :
    (runPipeline false false forLoopProg).2 = some (.cgen (.unsupportedStmt 4)) ∧
    (runPipeline false false forLoopProg).1 =
      some (prologue_text ++ "    mov rax, 5\n    push rax\n" ++
        "    pop rax\n    mov [rbp-8], rax\n") ∧
    (runPipeline false false forLoopProg).1 ≠ some "" ∧
    (runPipeline false false forLoopProg).1 ≠ none := by
  refine ⟨rfl, by decide, by decide, by decide⟩

/-- C3 (amended): an output artifact exists exactly when the semantic
pass succeeds — failures in earlier passes leave nothing because the
output file is never opened, but a failure raised during code generation
itself leaves the partially written assembly text. -/
theorem C3_artifact_iff_semantic_ok (w d : Bool) (f : Function) :
    (runPipeline w d f).1.isSome = true ↔ ∃ f2, semantic_check f = .ok f2 := by
  unfold runPipeline
  cases hs : semantic_check f with
  | error e => simp [hs]
  | ok f2 =>
      cases hcg : codegen_function w d f2 with
      | ok txt => simp [hcg]
      | error p => obtain ⟨txt, e⟩ := p; simp [hcg]

/-- C3 witness: the for-loop program's semantic pass succeeds, and
accordingly its (failed) run has an artifact. -/
theorem C3_artifact_iff_semantic_ok_witness :
    ((runPipeline false false forLoopProg).1.isSome = true) :=
  (C3_artifact_iff_semantic_ok false false forLoopProg).mpr ⟨_, rfl⟩

/-! ## C8 — print lowering dispatch -/

/-- C8 counterexample: for a string-literal argument node whose annotated
type is absent (unknown), the lowering calls the string-print routine,
not the integer-print fallback the claim announces for every absent
annotation. -/
theorem C8_print_dispatch_counterexample :
    print_callee (some (.E_STR_LIT "x" 1 7 tUnk)) = "runtime_print_string" ∧
    print_call_text false (some (.E_STR_LIT "x" 1 7 tUnk)) =
      "    pop rax\n    mov rdi, rax\n    call runtime_print_string\n    push 0\n" := by
  exact ⟨rfl, by decide⟩

/-- C8 (amended): `print` lowering pops the argument, moves it to the ABI
argument register, dispatches on the argument's annotated type — string
print for string, integer print for integer — and, when the annotation is
absent or non-primitive, falls back to integer print **unless** the node
is a string literal, which is printed as a string; in every case the call
is followed by pushing a dummy zero word. Concretely, `print(5)` emits a
call to the integer-print routine and `print("hi")` to the string-print
routine (and not vice versa). -/
theorem C8_print_dispatch :
    -- annotated string: string print.
    (∀ a : Expr, a.type.kind = .TY_STRING →
      print_callee (some a) = "runtime_print_string") ∧
    -- annotated integer: integer print.
    (∀ a : Expr, a.type.kind = .TY_INT →
      print_callee (some a) = "runtime_print_int") ∧
    -- other/absent annotation on a non-string-literal node: integer print.
    (∀ a : Expr, a.type.kind ≠ .TY_STRING → a.type.kind ≠ .TY_INT →
      (∀ (s : String) (l c : Nat) (ty : Ty), a ≠ .E_STR_LIT s l c ty) →
      print_callee (some a) = "runtime_print_int") ∧
    -- the amendment: a string-literal node is string-printed even with
    -- an absent annotation.
    (∀ (s : String) (l c : Nat) (ty : Ty), ty.kind ≠ .TY_STRING → ty.kind ≠ .TY_INT →
      print_callee (some (.E_STR_LIT s l c ty)) = "runtime_print_string") ∧
    -- no argument: integer print.
    print_callee none = "runtime_print_int" ∧
    -- the emitted text is the pop/move preamble, then the dispatched
    -- call, then the dummy zero push.
    (∀ (win : Bool) (arg : Option Expr),
      (print_call_text win arg).data =
        ("    pop rax\n" ++
          (if win then "    mov rcx, rax\n    sub rsp, 32\n" else "    mov rdi, rax\n")).data ++
        ("    call " ++ print_callee arg ++ "\n").data ++
        ((if win then "    add rsp, 32\n" else "") ++ "    push 0\n").data) ∧
    -- end to end: print(5) references the integer-print routine only,
    -- print("hi") the string-print routine only.
    ("call runtime_print_int".data <:+:
      ((runPipeline false false print5Prog).1.getD "").data) ∧
    ¬ ("call runtime_print_string".data <:+:
      ((runPipeline false false print5Prog).1.getD "").data) ∧
    ("call runtime_print_string".data <:+:
      ((runPipeline false false printHiProg).1.getD "").data) ∧
    ¬ ("call runtime_print_int".data <:+:
      ((runPipeline false false printHiProg).1.getD "").data) := by
  refine ⟨?_, ?_, ?_, ?_, rfl, ?_, by decide, by decide, by decide, by decide⟩
  · intro a h; simp [print_callee, h]
  · intro a h
    simp [print_callee, h]
  · intro a h1 h2 h3
    cases a with
    | E_STR_LIT s l c ty => exact absurd rfl (h3 s l c ty)
    | _ => simp_all [print_callee, Expr.type]
  · intro s l c ty h1 h2
    simp [print_callee, Expr.type, h1, h2]
  · intro win arg
    cases win <;> simp [print_call_text, String.data_append, List.append_assoc]

/-- C8 witness: the dispatch instances at the two concretely annotated
arguments of the spec's examples. -/
theorem C8_print_dispatch_witness :
    print_callee (some (.E_INT_LIT 5 1 7 tInt)) = "runtime_print_int" ∧
    print_callee (some (.E_STR_LIT "hi" 1 7 (mktype .TY_STRING))) = "runtime_print_string" :=
  ⟨C8_print_dispatch.2.1 (.E_INT_LIT 5 1 7 tInt) rfl,
   C8_print_dispatch.1 (.E_STR_LIT "hi" 1 7 (mktype .TY_STRING)) rfl⟩

/-! ## C9 — literal pool ids and data section -/

/-- Members of `countdown n` are at most `n`. -/
theorem mem_countdown {m n : Nat} (h : m ∈ countdown n) : m ≤ n := by
  induction n with
  | zero => simp [countdown] at h
  | succ k ih =>
      simp [countdown] at h
      rcases h with h | h
      · omega
      · exact Nat.le_succ_of_le (ih h)

/-- The sequential ids are pairwise distinct. -/
theorem countdown_nodup (n : Nat) : (countdown n).Nodup := by
  induction n with
  | zero => simp [countdown]
  | succ k ih =>
      refine List.nodup_cons.mpr ⟨fun hmem => ?_, ih⟩
      exact absurd (mem_countdown hmem) (by omega)

/-- Expression lowering preserves the pool invariant: the only pool
mutation is `cg_register_literal`, which extends it by the next id. -/
theorem cg_expr_lits_ok :
    (∀ (g : CG) (e : Expr), ∀ g2 : CG, lits_ok g → cg_emit_expr g e = .ok g2 → lits_ok g2) ∧
    (∀ (g : CG) (args : List Expr), ∀ g2 : CG, lits_ok g →
      cg_emit_args_rtl g args = .ok g2 → lits_ok g2) := by
  refine cg_emit_expr.mutual_induct
    (fun g e => ∀ g2 : CG, lits_ok g → cg_emit_expr g e = .ok g2 → lits_ok g2)
    (fun g args => ∀ g2 : CG, lits_ok g → cg_emit_args_rtl g args = .ok g2 → lits_ok g2)
    ?_ ?_ ?_ ?_ ?_ ?_ ?_ ?_ ?_ ?_ ?_ ?_ ?_ ?_
  · intro g v l c ty g2 h1 h2
    simp [cg_emit_expr] at h2
    exact h2 ▸ h1
  · intro g s l c ty g1 id hreg g2 h1 h2
    simp [cg_emit_expr, cg_register_literal] at h2
    subst h2
    simpa [lits_ok, emit, cg_register_literal, countdown] using h1
  · intro g name l c ty hfind g2 h1 h2
    simp [cg_emit_expr, cg_fail, hfind] at h2
  · intro g name l c ty v hfind g2 h1 h2
    simp [cg_emit_expr, hfind] at h2
    exact h2 ▸ h1
  · intro g fn args l c ty ih g2 h1 h2
    simp [cg_emit_expr] at h2
    cases hargs : cg_emit_args_rtl g args with
    | error p => simp [hargs, bind, Except.bind] at h2
    | ok ga =>
        simp [hargs, bind, Except.bind] at h2
        by_cases hp : fn = "print"
        · simp [hp] at h2
          exact h2 ▸ (ih ga h1 hargs)
        · by_cases hc : fn = "clone"
          · simp [hp, hc] at h2
            exact h2 ▸ (ih ga h1 hargs)
          · simp [hp, hc, cg_fail] at h2
  · intro g l c ty iname line col ty1 hfind g2 h1 h2
    simp [cg_emit_expr, cg_fail, hfind] at h2
  · intro g l c ty iname line col ty1 v hfind g2 h1 h2
    simp [cg_emit_expr, hfind] at h2
    exact h2 ▸ h1
  · intro g inner l c ty hni g2 h1 h2
    cases inner <;> simp [cg_emit_expr, cg_fail] at h2 <;>
      first
      | exact absurd rfl (fun h => hni _ _ _ _ h)
      | skip
  · intro g l c ty iname line col ty1 hfind g2 h1 h2
    simp [cg_emit_expr, cg_fail, hfind] at h2
  · intro g l c ty iname line col ty1 v hfind g2 h1 h2
    simp [cg_emit_expr, hfind] at h2
    exact h2 ▸ h1
  · intro g inner l c ty hni g2 h1 h2
    cases inner <;> simp [cg_emit_expr, cg_fail] at h2 <;>
      first
      | exact absurd rfl (fun h => hni _ _ _ _ h)
      | skip
  · intro g e hn1 hn2 hn3 hn4 hn5 hn6 g2 h1 h2
    cases e with
    | E_INT_LIT v line col ty => exact absurd rfl (fun h => hn1 v line col ty h)
    | E_STR_LIT s line col ty => exact absurd rfl (fun h => hn2 s line col ty h)
    | E_IDENT n line col ty => exact absurd rfl (fun h => hn3 n line col ty h)
    | E_CALL fn args line col ty => exact absurd rfl (fun h => hn4 fn args line col ty h)
    | E_ADDR inner line col ty => exact absurd rfl (fun h => hn5 inner line col ty h)
    | E_MUTADDR inner line col ty => exact absurd rfl (fun h => hn6 inner line col ty h)
    | E_BINOP op a b line col ty => simp [cg_emit_expr, cg_fail] at h2
    | E_RANGE a b line col ty => simp [cg_emit_expr, cg_fail] at h2
    | E_ARRAY_LIT items line col ty => simp [cg_emit_expr, cg_fail] at h2
    | E_INDEX a i line col ty => simp [cg_emit_expr, cg_fail] at h2
  · intro g g2 h1 h2
    simp [cg_emit_args_rtl] at h2
    exact h2 ▸ h1
  · intro g e rest ihrest ihe g2 h1 h2
    simp [cg_emit_args_rtl] at h2
    cases hrest : cg_emit_args_rtl g rest with
    | error p => simp [hrest, bind, Except.bind] at h2
    | ok ga =>
        simp [hrest, bind, Except.bind] at h2
        exact ihe ga g2 (ihrest ga h1 hrest) h2

/-- Statement lowering preserves the pool invariant. -/
theorem cg_stmt_lits_ok :
    (∀ (g : CG) (st : Stmt), ∀ g2 : CG, lits_ok g → cg_emit_stmt g st = .ok g2 → lits_ok g2) ∧
    (∀ (g : CG) (stmts : List Stmt), ∀ g2 : CG, lits_ok g →
      cg_emit_stmt_list g stmts = .ok g2 → lits_ok g2) := by
  refine cg_emit_stmt.mutual_induct
    (fun g st => ∀ g2 : CG, lits_ok g → cg_emit_stmt g st = .ok g2 → lits_ok g2)
    (fun g stmts => ∀ g2 : CG, lits_ok g → cg_emit_stmt_list g stmts = .ok g2 → lits_ok g2)
    ?_ ?_ ?_ ?_ ?_ ?_ ?_ ?_ ?_ ?_ ?_
  · intro g name ty init line col g1 hfind g2 h1 h2
    simp [cg_emit_stmt, cg_fail, hfind] at h2
  · intro g name ty line col g1 v hfind e g2 h1 h2
    simp [cg_emit_stmt, hfind] at h2
    cases hex : cg_emit_expr (cg_add g name ty) e with
    | error p => simp [hex, bind, Except.bind] at h2
    | ok ge =>
        simp [hex, bind, Except.bind] at h2
        exact h2 ▸ (cg_expr_lits_ok.1 (cg_add g name ty) e ge h1 hex)
  · intro g name ty line col g1 v hfind g2 h1 h2
    simp [cg_emit_stmt, hfind] at h2
    exact h2 ▸ h1
  · intro g e line col g2 h1 h2
    simp [cg_emit_stmt] at h2
    cases hex : cg_emit_expr g e with
    | error p => simp [hex, bind, Except.bind] at h2
    | ok ge =>
        simp [hex, bind, Except.bind] at h2
        exact h2 ▸ (cg_expr_lits_ok.1 g e ge h1 hex)
  · intro g stmts line col ih g2 h1 h2
    simp [cg_emit_stmt] at h2
    exact ih g2 h1 h2
  · intro g cond th es line col g1 id hlbl ihth ihes g2 h1 h2
    simp [cg_emit_stmt, hlbl] at h2
    have h1g : lits_ok g1 := by
      rw [show g1 = (cg_new_label g).1 from by rw [hlbl]]
      exact h1
    cases hcond : cg_emit_expr g1 cond with
    | error p => simp [hcond, bind, Except.bind] at h2
    | ok gc =>
        simp [hcond, bind, Except.bind] at h2
        have hgc : lits_ok gc := cg_expr_lits_ok.1 g1 cond gc h1g hcond
        cases hth : cg_emit_stmt (emit gc ("    pop rax\n    cmp rax, 0\n    je .Lelse" ++
            toString id ++ "\n")) th with
        | error p => simp [hth, bind, Except.bind] at h2
        | ok gt =>
            simp [hth, bind, Except.bind] at h2
            have hgt : lits_ok gt := ihth gc gt hgc hth
            cases hes : cg_emit_stmt (emit gt ("    jmp .Lend" ++ toString id ++
                "\n.Lelse" ++ toString id ++ ":\n")) es with
            | error p => simp [hes, bind, Except.bind] at h2
            | ok gn =>
                simp [hes, bind, Except.bind] at h2
                exact h2 ▸ (ihes gt gn hgt hes)
  · intro g cond th line col g1 id hlbl ihth g2 h1 h2
    simp [cg_emit_stmt, hlbl] at h2
    have h1g : lits_ok g1 := by
      rw [show g1 = (cg_new_label g).1 from by rw [hlbl]]
      exact h1
    cases hcond : cg_emit_expr g1 cond with
    | error p => simp [hcond, bind, Except.bind] at h2
    | ok gc =>
        simp [hcond, bind, Except.bind] at h2
        have hgc : lits_ok gc := cg_expr_lits_ok.1 g1 cond gc h1g hcond
        cases hth : cg_emit_stmt (emit gc ("    pop rax\n    cmp rax, 0\n    je .Lelse" ++
            toString id ++ "\n")) th with
        | error p => simp [hth, bind, Except.bind] at h2
        | ok gt =>
            simp [hth, bind, Except.bind] at h2
            exact h2 ▸ (ihth gc gt hgc hth)
  · intro g cond body line col g1 id hlbl ihbody g2 h1 h2
    simp [cg_emit_stmt, hlbl] at h2
    have h1g : lits_ok (emit g1 (".Lwhile" ++ toString id ++ ":\n")) := by
      rw [show g1 = (cg_new_label g).1 from by rw [hlbl]]
      exact h1
    cases hcond : cg_emit_expr (emit g1 (".Lwhile" ++ toString id ++ ":\n")) cond with
    | error p => simp [hcond, bind, Except.bind] at h2
    | ok gc =>
        simp [hcond, bind, Except.bind] at h2
        have hgc : lits_ok gc := cg_expr_lits_ok.1 _ cond gc h1g hcond
        cases hb : cg_emit_stmt (emit gc ("    pop rax\n    cmp rax, 0\n    je .Lendwhile" ++
            toString id ++ "\n")) body with
        | error p => simp [hb, bind, Except.bind] at h2
        | ok gt =>
            simp [hb, bind, Except.bind] at h2
            exact h2 ▸ (ihbody gc gt hgc hb)
  · intro g st hn1 hn2 hn3 hn4 hn5 hn6 g2 h1 h2
    cases st with
    | S_DECL name ty init line col => exact absurd rfl (fun h => hn1 name ty init line col h)
    | S_EXPR e line col => exact absurd rfl (fun h => hn2 e line col h)
    | S_BLOCK stmts line col => exact absurd rfl (fun h => hn3 stmts line col h)
    | S_IF cond th el line col =>
        cases el with
        | some es => exact absurd rfl (fun h => hn4 cond th es line col h)
        | none => exact absurd rfl (fun h => hn5 cond th line col h)
    | S_WHILE cond body line col => exact absurd rfl (fun h => hn6 cond body line col h)
    | S_FOR v iter body line col => simp [cg_emit_stmt, cg_fail] at h2
    | S_RETURN e line col => simp [cg_emit_stmt, cg_fail] at h2
    | S_BREAK line col => simp [cg_emit_stmt, cg_fail] at h2
    | S_CONTINUE line col => simp [cg_emit_stmt, cg_fail] at h2
  · intro g g2 h1 h2
    simp [cg_emit_stmt_list] at h2
    exact h2 ▸ h1
  · intro g st rest ihst ihrest g2 h1 h2
    simp [cg_emit_stmt_list] at h2
    cases hst : cg_emit_stmt g st with
    | error p => simp [hst, bind, Except.bind] at h2
    | ok ga =>
        simp [hst, bind, Except.bind] at h2
        exact ihrest ga g2 (ihst ga h1 hst) h2

/-- The literal-pool emission changes only the output text. -/
theorem emit_literals_lits (g : CG) : (emit_literals g).lits = g.lits := by
  by_cases hz : g.lit_count = 0 <;> simp [emit_literals, emit, hz]

/-- The literal-pool emission keeps the registration counter. -/
theorem emit_literals_lit_count (g : CG) : (emit_literals g).lit_count = g.lit_count := by
  by_cases hz : g.lit_count = 0 <;> simp [emit_literals, emit, hz]

/-- The output after literal emission: the previous text followed by the
data section (nothing when the pool is empty). -/
theorem emit_literals_out (g : CG) :
    (emit_literals g).out = g.out ++
      (if g.lit_count = 0 then ""
       else "\nsection .data\n" ++ String.join (g.lits.map lit_record)) := by
  by_cases hz : g.lit_count = 0 <;> simp [emit_literals, emit, hz]

/-- C9: every string-literal occurrence is assigned the next sequential
pool id at its point of emission (no deduplication), the use site
references exactly that id in its emitted text, and on every completed
run the pool ids are `lit_count, …, 1` — pairwise distinct, one per
registration — with the output ending in a data section holding exactly
one record per pool entry: its label from the id, then the literal's
character codes, then the zero terminator. -/
theorem C9_literal_pool :
    -- per-occurrence registration and the use-site reference.
    (∀ (g : CG) (s : String) (l c : Nat) (ty : Ty),
      cg_emit_expr g (.E_STR_LIT s l c ty) =
        .ok { (cg_register_literal g s).1 with
              out := g.out ++ string_literal_text g.win64 (g.lit_count + 1) } ∧
      (cg_register_literal g s).2 = g.lit_count + 1 ∧
      (cg_register_literal g s).1.lits = ⟨s, g.lit_count + 1⟩ :: g.lits ∧
      (cg_register_literal g s).1.lit_count = g.lit_count + 1) ∧
    -- whole-run pool shape and emitted data section.
    (∀ (win dbg : Bool) (f : Function) (g : CG),
      codegen_run win dbg f = .ok g →
      g.lits.map Lit.id = countdown g.lit_count ∧
      (g.lits.map Lit.id).Nodup ∧
      ∃ body, g.out = body ++
        (if g.lit_count = 0 then ""
         else "\nsection .data\n" ++ String.join (g.lits.map (fun L =>
           lit_label L.id ++ ": db " ++
           String.join (L.s.toList.map (fun ch => toString ch.toNat ++ ",")) ++ "0\n")))) := by
  constructor
  · intro g s l c ty
    exact ⟨rfl, rfl, rfl, rfl⟩
  · intro win dbg f g h
    simp [codegen_run] at h
    cases hst : cg_emit_stmt (emit ⟨win, "", 0, [], 0, dbg, [], 0⟩ prologue_text) f.body with
    | error p => simp [hst, bind, Except.bind] at h
    | ok gb =>
        simp [hst, bind, Except.bind] at h
        have hb : lits_ok gb :=
          cg_stmt_lits_ok.1 _ f.body gb (by simp [lits_ok, countdown, emit]) hst
        subst h
        have hids : (emit_literals (emit gb epilogue_text)).lits.map Lit.id =
            countdown (emit_literals (emit gb epilogue_text)).lit_count := by
          rw [emit_literals_lits, emit_literals_lit_count]
          exact hb
        refine ⟨hids, hids ▸ countdown_nodup _, ⟨(emit gb epilogue_text).out, ?_⟩⟩
        have hrec : lit_record = (fun L : Lit =>
            lit_label L.id ++ ": db " ++
            String.join (L.s.toList.map (fun ch => toString ch.toNat ++ ",")) ++ "0\n") := by
          funext L
          simp [lit_record, lit_bytes]
        rw [emit_literals_out, emit_literals_lits, emit_literals_lit_count, hrec]

/-- C9 witness: a completed run over `"hi";` — one registered literal
with id 1 (the sequential ids for a one-literal pool), pairwise
distinct. -/
theorem C9_literal_pool_witness :
    ({ win64 := false,
       out := "global main\nextern runtime_new_string\nextern runtime_print_int\nextern runtime_print_string\nextern runtime_clone_string\n\nsection .text\nmain:\n    push rbp\n    mov rbp, rsp\n    ; create string literal_1 (sysv)\n    lea rdi, [rel literal_1]\n    call runtime_new_string\n    push rax\n    add rsp, 8\n    mov eax, 0\n    mov rsp, rbp\n    pop rbp\n    ret\n\nsection .data\nliteral_1: db 104,105,0\n",
       stack_size := 0, slots := [], label_counter := 0, debug_borrow := false,
       lits := [⟨"hi", 1⟩], lit_count := 1 } : CG).lits.map Lit.id = countdown 1 ∧
    (([⟨"hi", 1⟩] : List Lit).map Lit.id).Nodup := by
  have h := C9_literal_pool.2 false false
    ⟨"main", tUnk, .S_BLOCK [.S_EXPR (.E_STR_LIT "hi" 1 1 tUnk) 1 1] 1 1⟩
    { win64 := false,
      out := "global main\nextern runtime_new_string\nextern runtime_print_int\nextern runtime_print_string\nextern runtime_clone_string\n\nsection .text\nmain:\n    push rbp\n    mov rbp, rsp\n    ; create string literal_1 (sysv)\n    lea rdi, [rel literal_1]\n    call runtime_new_string\n    push rax\n    add rsp, 8\n    mov eax, 0\n    mov rsp, rbp\n    pop rbp\n    ret\n\nsection .data\nliteral_1: db 104,105,0\n",
      stack_size := 0, slots := [], label_counter := 0, debug_borrow := false,
      lits := [⟨"hi", 1⟩], lit_count := 1 } rfl
  exact ⟨h.1, h.2.1⟩

end MyLang
